import Mathlib

/-!
Shallow embedding of `AI/app/services/speech_service.py` (class `SpeechService`).

Modelling conventions:
* Wall-clock time is an integer number of seconds (`Int`); `time.sleep(delay)`
  advances time by `delay`.  The token-validity comparison of the source,
  `time.time() < self.token_expire_time - 300`, is embedded verbatim on `Int`.
* Every network interaction is an oracle parameter: the token endpoint is a
  `FetchResult`, the upload endpoint an `UploadResponse`, and the poll loop
  reads one `QueryResponse` per attempt from `responses : Nat → QueryResponse`.
  A `transportFail` constructor stands for `requests` raising, a non-2xx status
  (`raise_for_status`) or a JSON parse error — all of which surface as a caught
  exception at the same program point.
* A Python `raise Exception(msg)` is an `Except.error msg` (or a dedicated
  outcome constructor); the f-string wrappings of the source are reproduced
  with string concatenation.
* JSON dictionaries become structures / constructor arguments with `Option`
  fields; `d.get(k, default)` is `field.getD default`, and `'k' in d` is
  `field.isSome`.
* The filesystem is the list of existing paths (`List String`);
  `os.path.exists` is membership, `os.remove` is `List.filter`.
* `uuid.uuid4()` is modelled as an input `freshId` (one fresh value per call);
  `max_retries : Nat` (Python's `range` yields no iterations for arguments
  that are zero or negative, so `Nat` with value 0 covers both cases).
-/

/-- Mutable credential state of `SpeechService.__init__`:
`self.access_token` (initially `None`) and `self.token_expire_time`
(initially `0`). -/
structure CredState where
  access_token : Option String
  token_expire_time : Int
deriving DecidableEq, Repr

/-- The state set up by `__init__`. -/
def initState : CredState := { access_token := none, token_expire_time := 0 }

/-- Python truthiness of `self.access_token`: `None` and the empty string are
falsy, any other string is truthy. -/
def tokenTruthy : Option String → Bool
  | none => false
  | some s => s != ""

/-- The source's validity test (line 28):
`self.access_token and time.time() < self.token_expire_time - 300`. -/
def credValid (st : CredState) (now : Int) : Bool :=
  tokenTruthy st.access_token && decide (now < st.token_expire_time - 300)

/-- JSON body returned by the token endpoint: optional `access_token`,
optional `expires_in`, optional `errmsg`. -/
structure TokenResponse where
  access_token : Option String
  expires_in : Option Int
  errmsg : Option String
deriving DecidableEq, Repr

/-- Result of the `requests.get` call in `get_access_token`:
either the transport layer raised (connection error, bad HTTP status,
JSON parse failure), or a JSON body was obtained. -/
inductive FetchResult where
  | transportFail (msg : String)
  | ok (data : TokenResponse)
deriving DecidableEq, Repr

/-- How `get_access_token` ended: token served from cache (no network call),
token obtained from a network fetch, or an exception raised. -/
inductive TokenOutcome where
  | cached (tok : String)
  | fetched (tok : String)
  | error (msg : String)
deriving DecidableEq, Repr

/-- `SpeechService.get_access_token` (lines 22-47).  If the cached token is
truthy and `now < token_expire_time - 300`, it is returned with no network
call.  Otherwise the endpoint is consulted: a body containing `access_token`
updates the cache to expire at `now + expires_in` (default 7200); a body
without `access_token` raises with the remote `errmsg` (default
"Unknown error"); a transport failure raises.  Both raises are wrapped by the
outer `except` into "Error getting access_token: ...", and neither touches
the cached state. -/
def get_access_token (st : CredState) (now : Int) (fetch : FetchResult) :
    TokenOutcome × CredState :=
  if tokenTruthy st.access_token && decide (now < st.token_expire_time - 300) then
    (TokenOutcome.cached (st.access_token.getD ""), st)
  else
    match fetch with
    | FetchResult.transportFail m =>
        (TokenOutcome.error ("Error getting access_token: " ++ m), st)
    | FetchResult.ok data =>
        match data.access_token with
        | some tok =>
            (TokenOutcome.fetched tok,
             { access_token := some tok,
               token_expire_time := now + data.expires_in.getD 7200 })
        | none =>
            (TokenOutcome.error
               ("Error getting access_token: Failed to get access_token: "
                 ++ data.errmsg.getD "Unknown error"), st)

/-- The token `get_access_token` hands back, `none` when it raises. -/
def tokenOf : TokenOutcome → Option String
  | TokenOutcome.cached t => some t
  | TokenOutcome.fetched t => some t
  | TokenOutcome.error _ => none

/-- Token produced by a `get_access_token` call on the given state, time and
fetch oracle (`none` when the call raises). -/
def tokenResult (st : CredState) (now : Int) (fetch : FetchResult) : Option String :=
  tokenOf (get_access_token st now fetch).1

/-- A fetch oracle on which the token endpoint fails: either the transport
raised, or the body carries no `access_token`. -/
def fetchFails : FetchResult → Bool
  | FetchResult.transportFail _ => true
  | FetchResult.ok data => data.access_token.isNone

/-- One poll attempt's interaction with the query endpoint: the request
raised at the transport level, or a JSON body arrived with an optional
`result`, optional `errcode` and optional `errmsg`. -/
inductive QueryResponse where
  | transportFail (msg : String)
  | payload (result : Option String) (errcode : Option Int) (errmsg : Option String)
deriving DecidableEq, Repr

/-- Does `pat` occur at the start of `l`? (helper for the substring test) -/
def isStartOf : List Char → List Char → Bool
  | [], _ => true
  | _ :: _, [] => false
  | a :: as, b :: bs => a == b && isStartOf as bs

/-- Does `pat` occur anywhere in `l`?  This is Python's `in` operator on
strings, on the character lists of the two strings. -/
def occursIn (pat : List Char) : List Char → Bool
  | [] => pat.isEmpty
  | c :: cs => isStartOf pat (c :: cs) || occursIn pat cs

/-- `m.lower()`: the character list of `m` with each character lowercased. -/
def lowerChars (m : String) : List Char := m.toList.map Char.toLower

/-- The source's transient-error test (line 175):
`"busy" in error_msg.lower() or "wait" in error_msg.lower()`. -/
def isTransientMsg (m : String) : Bool :=
  occursIn "busy".toList (lowerChars m) || occursIn "wait".toList (lowerChars m)

/-- What the body of one loop iteration of `query_recognition_result`
does with a response. -/
inductive StepClass where
  | ret (s : String)
  | next
  | exn (msg : String)
deriving DecidableEq, Repr

/-- Classification of one response by the loop body (lines 164-182).
A transport failure raises.  `'result' in result` returns it.  Otherwise,
`result.get('errcode') != 0` (true also when `errcode` is absent) takes the
error branch: a message containing "busy" or "wait" (case-insensitive)
does `continue`, anything else raises "Recognition error: ..." — a raise
that the enclosing `except Exception` of the same loop then catches.
A present `errcode` equal to 0 with no result does `continue`. -/
def classify : QueryResponse → StepClass
  | QueryResponse.transportFail m => StepClass.exn m
  | QueryResponse.payload r ec em =>
    match r with
    | some s => StepClass.ret s
    | none =>
      if ec ≠ some 0 then
        if isTransientMsg (em.getD "Unknown error") then StepClass.next
        else StepClass.exn ("Recognition error: " ++ (em.getD "Unknown error"))
      else StepClass.next

/-- Terminal outcome of `query_recognition_result`. -/
inductive PollOutcome where
  | success (text : String)
  | attemptsError (msg : String)
  | maxRetriesExceeded
  | authError (msg : String)
deriving DecidableEq, Repr

/-- The `for attempt in range(max_retries)` loop of
`query_recognition_result` (lines 160-187), starting at iteration `attempt`
with `fuel` iterations left (call sites keep `attempt + fuel = max_retries`).
Each entered iteration sleeps once, issues one query, and classifies the
response; the second component counts the entered iterations.  An exception
(transport failure or the "Recognition error" raise) is caught by the
iteration's own `except Exception`: on the final iteration
(`attempt == max_retries - 1`) it is re-raised wrapped, otherwise the loop
moves on to the next attempt.  Exhausting the loop raises
"Max retries exceeded without getting result" (line 188). -/
def pollFrom (responses : Nat → QueryResponse) (max_retries : Nat) :
    Nat → Nat → PollOutcome × Nat
  | _, 0 => (PollOutcome.maxRetriesExceeded, 0)
  | attempt, fuel+1 =>
    match classify (responses attempt) with
    | StepClass.ret s => (PollOutcome.success s, 1)
    | StepClass.next =>
      ((pollFrom responses max_retries (attempt+1) fuel).1,
       (pollFrom responses max_retries (attempt+1) fuel).2 + 1)
    | StepClass.exn e =>
      if attempt = max_retries - 1 then
        (PollOutcome.attemptsError
          ("Failed to get recognition result after " ++ toString max_retries
            ++ " attempts: " ++ e), 1)
      else
        ((pollFrom responses max_retries (attempt+1) fuel).1,
         (pollFrom responses max_retries (attempt+1) fuel).2 + 1)

/-- Observable record of one `query_recognition_result` call: its outcome,
how many `get_access_token` calls it made, how many query requests it issued,
how many sleeps it performed, and the token and absolute send time attached
to each query request in order. -/
structure PollRun where
  outcome : PollOutcome
  tokenLookups : Nat
  queriesIssued : Nat
  sleeps : Nat
  queryTokens : List String
  queryTimes : List Int
deriving DecidableEq, Repr

/-- `SpeechService.query_recognition_result` (lines 136-188), started at time
`t0`.  `get_access_token` is called exactly once, before the loop (line 150),
and the token is baked into `params`, so every query request of the run
carries that same token; request `i` (0-based) is sent at `t0 + (i+1)*delay`
because each iteration sleeps `delay` before posting.  If `get_access_token`
raises, the exception propagates and no attempt is made.  Returns the run
record together with the credential state after the call. -/
def query_recognition_result (st : CredState) (t0 delay : Int)
    (fetch : FetchResult) (responses : Nat → QueryResponse)
    (max_retries : Nat) : PollRun × CredState :=
  match get_access_token st t0 fetch with
  | (TokenOutcome.error m, st2) =>
      ({ outcome := PollOutcome.authError m, tokenLookups := 1,
         queriesIssued := 0, sleeps := 0, queryTokens := [], queryTimes := [] },
       st2)
  | (TokenOutcome.cached tok, st2) | (TokenOutcome.fetched tok, st2) =>
      ({ outcome := (pollFrom responses max_retries 0 max_retries).1,
         tokenLookups := 1,
         queriesIssued := (pollFrom responses max_retries 0 max_retries).2,
         sleeps := (pollFrom responses max_retries 0 max_retries).2,
         queryTokens :=
           List.replicate (pollFrom responses max_retries 0 max_retries).2 tok,
         queryTimes :=
           (List.range (pollFrom responses max_retries 0 max_retries).2).map
             (fun i => t0 + ((i : Int) + 1) * delay) },
       st2)

/-- Response of the upload endpoint in `upload_voice_for_recognition`:
transport failure, or a JSON body with optional `errcode` and `errmsg`. -/
inductive UploadResponse where
  | transportFail (msg : String)
  | payload (errcode : Option Int) (errmsg : Option String)
deriving DecidableEq, Repr

/-- Observable record of one `upload_voice_for_recognition` call: the
returned voice id or raised message, the number of POST requests attempted,
and the `voice_id` parameter attached to the request (if one was sent). -/
structure UploadRun where
  outcome : Except String String
  posts : Nat
  sentVoiceId : Option String
deriving Repr

/-- `SpeechService.upload_voice_for_recognition` (lines 92-134).
`get_access_token` is called first (outside the `try`, so its exception
propagates unwrapped); a fresh `voice_id` (`uuid.uuid4()`, the `freshId`
argument) is generated and put into the request parameters.  Opening a
missing file raises inside the `try` before any POST.  Exactly one POST is
attempted; `errcode == 0` returns the locally generated `voice_id`, any
other body raises "Upload failed: <errmsg>", and every exception of the
`try` is wrapped into "Voice upload error: ...".  Nothing is retried. -/
def upload_voice_for_recognition (fs : List String) (audio_file_path : String)
    (st : CredState) (now : Int) (fetch : FetchResult) (freshId : String)
    (resp : UploadResponse) : UploadRun × CredState :=
  match get_access_token st now fetch with
  | (TokenOutcome.error m, st2) =>
      ({ outcome := Except.error m, posts := 0, sentVoiceId := none }, st2)
  | (TokenOutcome.cached _, st2) | (TokenOutcome.fetched _, st2) =>
      if audio_file_path ∈ fs then
        match resp with
        | UploadResponse.transportFail m =>
            ({ outcome := Except.error ("Voice upload error: " ++ m),
               posts := 1, sentVoiceId := some freshId }, st2)
        | UploadResponse.payload ec em =>
            if ec = some 0 then
              ({ outcome := Except.ok freshId, posts := 1,
                 sentVoiceId := some freshId }, st2)
            else
              ({ outcome := Except.error
                   ("Voice upload error: Upload failed: "
                     ++ em.getD "Unknown error"),
                 posts := 1, sentVoiceId := some freshId }, st2)
      else
        ({ outcome := Except.error
             ("Voice upload error: No such file: " ++ audio_file_path),
           posts := 0, sentVoiceId := none }, st2)

/-- Result of the pydub pipeline (`AudioSegment.from_file`, resampling,
`export`) in `convert_audio_to_mp3`, treated as a black box: it either
produces the output file in full or fails producing nothing. -/
inductive ConvertResult where
  | ok
  | fail (msg : String)
deriving DecidableEq, Repr

/-- `os.path.splitext(p)[0]`, modelled as everything before the last dot
(identity when the path has no dot).  No claim depends on the exact path
shape, only on the artifact path being a single well-defined value. -/
def splitextBase (s : String) : String :=
  match s.splitOn "." with
  | [] => s
  | [_] => s
  | parts => String.intercalate "." parts.dropLast

/-- Default output path of `convert_audio_to_mp3` (line 76):
`base_name + "_converted.mp3"`. -/
def convertedPath (input : String) : String :=
  splitextBase input ++ "_converted.mp3"

/-- `SpeechService.convert_audio_to_mp3` (lines 49-90) with
`output_path=None`.  A missing input raises `FileNotFoundError`, re-wrapped
by the function's own `except` as "Audio conversion failed: ...".  On
success the output file exists afterwards and its path is returned;
on a conversion failure no file is created.  Returns the result together
with the filesystem after the call. -/
def convert_audio_to_mp3 (fs : List String) (input : String)
    (conv : ConvertResult) : Except String String × List String :=
  if input ∈ fs then
    match conv with
    | ConvertResult.ok =>
        (Except.ok (convertedPath input), convertedPath input :: fs)
    | ConvertResult.fail m =>
        (Except.error ("Audio conversion failed: " ++ m), fs)
  else
    (Except.error ("Audio conversion failed: Audio file not found: " ++ input),
     fs)

/-- Message carried by a raised poll outcome (the text of the corresponding
`raise` in `query_recognition_result`). -/
def pollErrText : PollOutcome → String
  | PollOutcome.success t => t
  | PollOutcome.authError m => m
  | PollOutcome.attemptsError m => m
  | PollOutcome.maxRetriesExceeded => "Max retries exceeded without getting result"

/-- `SpeechService.recognize_speech` (lines 190-222): convert, then upload,
then poll (with the source's call-site defaults `max_retries=5`, `delay=1`).
Any exception of the `try` is re-raised as "Speech recognition failed: ...".
The `finally` block deletes the converted file when the local
`converted_audio` was bound (i.e. when `convert_audio_to_mp3` returned) and
the file exists — on every exit path.  When conversion itself raised, the
local is unbound and the `finally` does nothing.  Returns the overall result
together with the filesystem after the call. -/
def recognize_speech (fs : List String) (input : String) (conv : ConvertResult)
    (st : CredState) (t0 : Int) (fetchU fetchQ : FetchResult) (freshId : String)
    (uResp : UploadResponse) (responses : Nat → QueryResponse) :
    Except String String × List String :=
  match convert_audio_to_mp3 fs input conv with
  | (Except.error m, fs1) =>
      (Except.error ("Speech recognition failed: " ++ m), fs1)
  | (Except.ok artifact, fs1) =>
      ((match (upload_voice_for_recognition fs1 artifact st t0 fetchU freshId
                 uResp) with
        | (u, st1) =>
          match u.outcome with
          | Except.error m => Except.error ("Speech recognition failed: " ++ m)
          | Except.ok _voice_id =>
            match (query_recognition_result st1 t0 1 fetchQ responses 5).1.outcome with
            | PollOutcome.success text => Except.ok text
            | o => Except.error ("Speech recognition failed: " ++ pollErrText o)),
       fs1.filter (fun p => p != artifact))

/-- A response that the loop body of `query_recognition_result` merely skips
(no exception, no return): it carries no result and either a present zero
`errcode` or a transient ("busy"/"wait") message. -/
def retryableResp : QueryResponse → Bool
  | QueryResponse.transportFail _ => false
  | QueryResponse.payload r ec em =>
    match r with
    | some _ => false
    | none => ec == some 0 || isTransientMsg (em.getD "Unknown error")

/-- The result payload carried by a query response, if any. -/
def resultOf : QueryResponse → Option String
  | QueryResponse.transportFail _ => none
  | QueryResponse.payload r _ _ => r

theorem classify_of_retryable (q : QueryResponse) (h : retryableResp q = true) :
    classify q = StepClass.next := by
  cases q with
  | transportFail m => simp [retryableResp] at h
  | payload r ec em =>
    cases r with
    | some s => simp [retryableResp] at h
    | none =>
      simp only [retryableResp, Bool.or_eq_true, beq_iff_eq] at h
      rcases h with h | h
      · simp [classify, h]
      · by_cases hec : ec = some 0
        · simp [classify, hec]
        · simp [classify, hec, h]

theorem classify_of_result (q : QueryResponse) (s : String)
    (h : resultOf q = some s) : classify q = StepClass.ret s := by
  cases q with
  | transportFail m => simp [resultOf] at h
  | payload r ec em =>
    simp only [resultOf] at h
    subst h
    rfl

theorem classify_of_noResult (q : QueryResponse) (h : resultOf q = none) :
    classify q = StepClass.next ∨ ∃ e, classify q = StepClass.exn e := by
  cases q with
  | transportFail m => exact Or.inr ⟨m, rfl⟩
  | payload r ec em =>
    simp only [resultOf] at h
    subst h
    by_cases hec : ec = some 0
    · exact Or.inl (by simp [classify, hec])
    · by_cases ht : isTransientMsg (em.getD "Unknown error") = true
      · exact Or.inl (by simp [classify, hec, ht])
      · exact Or.inr ⟨"Recognition error: " ++ em.getD "Unknown error",
          by simp [classify, hec, ht]⟩

theorem pollFrom_count_le (r : Nat → QueryResponse) (m : Nat) :
    ∀ (f a : Nat), (pollFrom r m a f).2 ≤ f := by
  intro f
  induction f with
  | zero => intro a; simp [pollFrom]
  | succ f ih =>
    intro a
    cases hc : classify (r a) with
    | ret s => simp [pollFrom, hc]
    | next =>
      have := ih (a+1)
      simp only [pollFrom, hc]
      omega
    | exn e =>
      by_cases hfin : a = m - 1
      · subst hfin
        simp [pollFrom, hc]
      · have := ih (a+1)
        simp only [pollFrom, hc, if_neg hfin]
        omega

theorem pollFrom_all_retryable (r : Nat → QueryResponse) (m : Nat)
    (hr : ∀ i, i < m → retryableResp (r i) = true) :
    ∀ (f a : Nat), a + f = m →
      pollFrom r m a f = (PollOutcome.maxRetriesExceeded, f) := by
  intro f
  induction f with
  | zero => intro a _; simp [pollFrom]
  | succ f ih =>
    intro a hm
    have ha : a < m := by omega
    have hc : classify (r a) = StepClass.next := classify_of_retryable _ (hr a ha)
    have hrec := ih (a+1) (by omega)
    simp [pollFrom, hc, hrec]

theorem pollFrom_first_result (r : Nat → QueryResponse) (m k : Nat) (s : String)
    (hk : k < m) (hpre : ∀ i, i < k → resultOf (r i) = none)
    (hres : resultOf (r k) = some s) :
    ∀ (f a : Nat), a + f = m → a ≤ k →
      pollFrom r m a f = (PollOutcome.success s, k - a + 1) := by
  intro f
  induction f with
  | zero => intro a hm hak; exfalso; omega
  | succ f ih =>
    intro a hm hak
    by_cases hak2 : a = k
    · subst hak2
      have hc := classify_of_result _ _ hres
      simp [pollFrom, hc]
    · have haltk : a < k := by omega
      have hnone := hpre a haltk
      have hanm : a ≠ m - 1 := by omega
      have hrec := ih (a+1) (by omega) (by omega)
      have harith : k - (a + 1) + 1 + 1 = k - a + 1 := by omega
      rcases classify_of_noResult _ hnone with hc | ⟨e, hc⟩
      · simp only [pollFrom, hc, hrec, harith]
      · simp only [pollFrom, hc, if_neg hanm, hrec, harith]

theorem pollFrom_final_exn (r : Nat → QueryResponse) (m : Nat) (e : String)
    (hpre : ∀ i, i < m - 1 → resultOf (r i) = none)
    (hfin : classify (r (m - 1)) = StepClass.exn e) :
    ∀ (f a : Nat), a + f = m → a < m →
      pollFrom r m a f =
        (PollOutcome.attemptsError
          ("Failed to get recognition result after " ++ toString m
            ++ " attempts: " ++ e), f) := by
  intro f
  induction f with
  | zero => intro a hm ham; exfalso; omega
  | succ f ih =>
    intro a hm ham
    by_cases hlast : a = m - 1
    · have hf : f = 0 := by omega
      subst hf
      subst hlast
      simp [pollFrom, hfin]
    · have haltm : a < m - 1 := by omega
      have hnone := hpre a haltm
      have hrec := ih (a+1) (by omega) (by omega)
      rcases classify_of_noResult _ hnone with hc | ⟨e2, hc⟩
      · simp [pollFrom, hc, hrec]
      · simp [pollFrom, hc, if_neg hlast, hrec]

theorem query_run_eq (st : CredState) (t0 delay : Int) (fetch : FetchResult)
    (r : Nat → QueryResponse) (m : Nat) (tok : String)
    (h : tokenResult st t0 fetch = some tok) :
    (query_recognition_result st t0 delay fetch r m).1 =
      { outcome := (pollFrom r m 0 m).1, tokenLookups := 1,
        queriesIssued := (pollFrom r m 0 m).2,
        sleeps := (pollFrom r m 0 m).2,
        queryTokens := List.replicate (pollFrom r m 0 m).2 tok,
        queryTimes := (List.range (pollFrom r m 0 m).2).map
          (fun i => t0 + ((i : Int) + 1) * delay) } := by
  unfold tokenResult at h
  unfold query_recognition_result
  rcases hg : get_access_token st t0 fetch with ⟨tk, st2⟩
  rw [hg] at h
  cases tk with
  | cached t =>
    simp only [tokenOf] at h
    rw [Option.some_inj] at h
    subst h
    rfl
  | fetched t =>
    simp only [tokenOf] at h
    rw [Option.some_inj] at h
    subst h
    rfl
  | error msg => simp [tokenOf] at h

theorem query_run_eq_error (st : CredState) (t0 delay : Int)
    (fetch : FetchResult) (r : Nat → QueryResponse) (m : Nat)
    (h : tokenResult st t0 fetch = none) :
    ∃ em, (query_recognition_result st t0 delay fetch r m).1 =
      { outcome := PollOutcome.authError em, tokenLookups := 1,
        queriesIssued := 0, sleeps := 0, queryTokens := [],
        queryTimes := [] } := by
  unfold tokenResult at h
  unfold query_recognition_result
  rcases hg : get_access_token st t0 fetch with ⟨tk, st2⟩
  rw [hg] at h
  cases tk with
  | cached t => simp [tokenOf] at h
  | fetched t => simp [tokenOf] at h
  | error msg => exact ⟨msg, rfl⟩

/-- C3: `get_access_token` returns the cached credential with no network
call (the fetch oracle is irrelevant) whenever a cached token exists and the
current time is strictly before `token_expire_time - 300`; otherwise it
consults the endpoint and, on a body carrying `access_token`, caches the
pair of that token and `now + expires_in`, with `expires_in` defaulting to
7200 when the response omits it. -/
theorem C3_token_cache (st : CredState) (now : Int) :
    (∀ tok, st.access_token = some tok → tok ≠ "" →
      now < st.token_expire_time - 300 →
      ∀ fetch, get_access_token st now fetch = (TokenOutcome.cached tok, st)) ∧
    (¬ (tokenTruthy st.access_token = true ∧ now < st.token_expire_time - 300) →
      ∀ (data : TokenResponse) (tok : String), data.access_token = some tok →
        get_access_token st now (FetchResult.ok data)
          = (TokenOutcome.fetched tok,
             { access_token := some tok,
               token_expire_time := now + data.expires_in.getD 7200 })) := by
  constructor
  · intro tok hsome hne hlt fetch
    have ht : tokenTruthy st.access_token = true := by
      simp [tokenTruthy, hsome, hne]
    have hcond : (tokenTruthy st.access_token
        && decide (now < st.token_expire_time - 300)) = true := by
      simp [ht, hlt]
    unfold get_access_token
    rw [if_pos hcond, hsome]
    rfl
  · intro hmiss data tok hsome
    have hcond : ¬ ((tokenTruthy st.access_token
        && decide (now < st.token_expire_time - 300)) = true) := by
      rw [Bool.and_eq_true, decide_eq_true_eq]
      exact hmiss
    unfold get_access_token
    rw [if_neg hcond]
    simp [hsome]

/-- Witness for C3 at concrete inputs: a valid cached token is returned
as-is for any fetch oracle, and a cache miss caches the fetched token with
the default 7200-second lifetime. -/
theorem C3_token_cache_witness :
    (get_access_token { access_token := some "T", token_expire_time := 1000 } 0
        (FetchResult.transportFail "down")
      = (TokenOutcome.cached "T",
         { access_token := some "T", token_expire_time := 1000 })) ∧
    (get_access_token initState 0
        (FetchResult.ok { access_token := some "N", expires_in := none, errmsg := none })
      = (TokenOutcome.fetched "N",
         { access_token := some "N", token_expire_time := 7200 })) := by
  constructor
  · exact (C3_token_cache { access_token := some "T", token_expire_time := 1000 } 0).1
      "T" rfl (by decide) (by decide) (FetchResult.transportFail "down")
  · exact (C3_token_cache initState 0).2 (by decide)
      { access_token := some "N", expires_in := none, errmsg := none } "N" rfl

/-- C9: when the credential fetch fails (transport failure, or a body
without `access_token`) on a cache miss, `get_access_token` raises and the
cached credential state is returned exactly as it was — the stale cache is
not cleared. -/
theorem C9_cache_preserved_on_failure (st : CredState) (now : Int)
    (fetch : FetchResult) (hfail : fetchFails fetch = true)
    (hmiss : ¬ (tokenTruthy st.access_token = true
      ∧ now < st.token_expire_time - 300)) :
    (get_access_token st now fetch).2 = st ∧
    ∃ m, (get_access_token st now fetch).1 = TokenOutcome.error m := by
  have hcond : ¬ ((tokenTruthy st.access_token
      && decide (now < st.token_expire_time - 300)) = true) := by
    rw [Bool.and_eq_true, decide_eq_true_eq]
    exact hmiss
  cases fetch with
  | transportFail m =>
    unfold get_access_token
    rw [if_neg hcond]
    exact ⟨rfl, ⟨"Error getting access_token: " ++ m, rfl⟩⟩
  | ok data =>
    have hnone : data.access_token = none := by
      simpa [fetchFails, Option.isNone_iff_eq_none] using hfail
    unfold get_access_token
    rw [if_neg hcond]
    constructor
    · simp [hnone]
    · exact ⟨"Error getting access_token: Failed to get access_token: "
        ++ data.errmsg.getD "Unknown error", by simp [hnone]⟩

/-- Witness for C9: an expired cache plus an unreachable endpoint leaves the
stale token and expiry in place and yields a raise. -/
theorem C9_cache_preserved_on_failure_witness :
    (get_access_token { access_token := some "OLD", token_expire_time := 50 } 0
        (FetchResult.transportFail "down")).2
      = { access_token := some "OLD", token_expire_time := 50 } ∧
    ∃ m, (get_access_token { access_token := some "OLD", token_expire_time := 50 } 0
        (FetchResult.transportFail "down")).1 = TokenOutcome.error m :=
  C9_cache_preserved_on_failure
    { access_token := some "OLD", token_expire_time := 50 } 0
    (FetchResult.transportFail "down") (by decide) (by decide)

/-- C5: for every `max_retries` (as a `Nat`; Python's `range` is empty on
zero and negative arguments alike) and every sequence of query responses,
`query_recognition_result` issues at most `max_retries` query requests. -/
theorem C5_poll_bounded (st : CredState) (t0 delay : Int) (fetch : FetchResult)
    (responses : Nat → QueryResponse) (m : Nat) :
    (query_recognition_result st t0 delay fetch responses m).1.queriesIssued
      ≤ m := by
  cases h : tokenResult st t0 fetch with
  | none =>
    rcases query_run_eq_error st t0 delay fetch responses m h with ⟨em, he⟩
    rw [he]
    exact Nat.zero_le m
  | some tok =>
    rw [query_run_eq st t0 delay fetch responses m tok h]
    simpa using pollFrom_count_le responses m m 0

/-- C10: calling the poller with `max_retries = 0` (Python's `range` also
yields no iterations for negative arguments) performs no sleep, issues no
query request, makes the single pre-loop credential lookup, and — when that
lookup succeeds — raises the "Max retries exceeded" error immediately. -/
theorem C10_zero_attempts (st : CredState) (t0 delay : Int)
    (fetch : FetchResult) (responses : Nat → QueryResponse) :
    ((query_recognition_result st t0 delay fetch responses 0).1.queriesIssued
      = 0) ∧
    ((query_recognition_result st t0 delay fetch responses 0).1.sleeps = 0) ∧
    ((query_recognition_result st t0 delay fetch responses 0).1.tokenLookups
      = 1) ∧
    (∀ tok, tokenResult st t0 fetch = some tok →
      (query_recognition_result st t0 delay fetch responses 0).1.outcome
        = PollOutcome.maxRetriesExceeded) := by
  cases h : tokenResult st t0 fetch with
  | none =>
    rcases query_run_eq_error st t0 delay fetch responses 0 h with ⟨em, he⟩
    rw [he]
    exact ⟨rfl, rfl, rfl, fun tok htok => by simp at htok⟩
  | some tok =>
    rw [query_run_eq st t0 delay fetch responses 0 tok h]
    exact ⟨rfl, rfl, rfl, fun tok2 _ => rfl⟩

/-- Witness for C10 at concrete inputs with a successful credential lookup. -/
theorem C10_zero_attempts_witness :
    ((query_recognition_result initState 0 1
        (FetchResult.ok { access_token := some "T", expires_in := none, errmsg := none })
        (fun _ => QueryResponse.transportFail "never sent") 0).1.queriesIssued
      = 0) ∧
    ((query_recognition_result initState 0 1
        (FetchResult.ok { access_token := some "T", expires_in := none, errmsg := none })
        (fun _ => QueryResponse.transportFail "never sent") 0).1.outcome
      = PollOutcome.maxRetriesExceeded) := by
  have h := C10_zero_attempts initState 0 1
    (FetchResult.ok { access_token := some "T", expires_in := none, errmsg := none })
    (fun _ => QueryResponse.transportFail "never sent")
  exact ⟨h.1, h.2.2.2 "T" rfl⟩

/-- C7: if the response of attempt `k+1` (1-based; index `k` here) carries a
result payload and no earlier response did, the poll returns Success with
that result immediately: exactly `k+1` query requests and `k+1` sleeps
happen, none after that attempt. -/
theorem C7_short_circuit (st : CredState) (t0 delay : Int)
    (fetch : FetchResult) (responses : Nat → QueryResponse) (m k : Nat)
    (s tok : String) (htok : tokenResult st t0 fetch = some tok) (hk : k < m)
    (hpre : ∀ i, i < k → resultOf (responses i) = none)
    (hres : resultOf (responses k) = some s) :
    ((query_recognition_result st t0 delay fetch responses m).1.outcome
      = PollOutcome.success s) ∧
    ((query_recognition_result st t0 delay fetch responses m).1.queriesIssued
      = k + 1) ∧
    ((query_recognition_result st t0 delay fetch responses m).1.sleeps
      = k + 1) := by
  have hp := pollFrom_first_result responses m k s hk hpre hres m 0
    (by omega) (by omega)
  rw [query_run_eq st t0 delay fetch responses m tok htok]
  simp [hp]

/-- Witness for C7: with no result on attempt 1 and a result on attempt 2 of
3, polling returns that result after exactly 2 queries and 2 sleeps. -/
theorem C7_short_circuit_witness :
    ((query_recognition_result initState 0 1
        (FetchResult.ok { access_token := some "T", expires_in := none, errmsg := none })
        (fun i => if i = 0 then QueryResponse.payload none (some 0) none
                  else QueryResponse.payload (some "hello world") none none) 3).1.outcome
      = PollOutcome.success "hello world") ∧
    ((query_recognition_result initState 0 1
        (FetchResult.ok { access_token := some "T", expires_in := none, errmsg := none })
        (fun i => if i = 0 then QueryResponse.payload none (some 0) none
                  else QueryResponse.payload (some "hello world") none none) 3).1.queriesIssued
      = 2) ∧
    ((query_recognition_result initState 0 1
        (FetchResult.ok { access_token := some "T", expires_in := none, errmsg := none })
        (fun i => if i = 0 then QueryResponse.payload none (some 0) none
                  else QueryResponse.payload (some "hello world") none none) 3).1.sleeps
      = 2) :=
  C7_short_circuit initState 0 1
    (FetchResult.ok { access_token := some "T", expires_in := none, errmsg := none })
    (fun i => if i = 0 then QueryResponse.payload none (some 0) none
              else QueryResponse.payload (some "hello world") none none)
    3 1 "hello world" "T" rfl (by omega)
    (by intro i hi
        have : i = 0 := by omega
        subst this
        rfl)
    rfl

/-- C6: (a) if every one of the `m` responses is of the kind the loop body
skips (no result, and a zero errcode or a transient message), the poll ends
with the "Max retries exceeded" raise; (b) a transport-level failure on the
final attempt, after result-free earlier attempts, ends the poll with the
wrapping raise that carries that last transport error; (c) an exception on
a non-final attempt is retried: the loop continues with the next attempt. -/
theorem C6_exhausted_and_final_transport (st : CredState) (t0 delay : Int)
    (fetch : FetchResult) (responses : Nat → QueryResponse) (m : Nat)
    (tok : String) (htok : tokenResult st t0 fetch = some tok) :
    ((∀ i, i < m → retryableResp (responses i) = true) →
      (query_recognition_result st t0 delay fetch responses m).1.outcome
        = PollOutcome.maxRetriesExceeded) ∧
    (∀ e, 1 ≤ m → (∀ i, i < m - 1 → resultOf (responses i) = none) →
      responses (m - 1) = QueryResponse.transportFail e →
      (query_recognition_result st t0 delay fetch responses m).1.outcome
        = PollOutcome.attemptsError
            ("Failed to get recognition result after " ++ toString m
              ++ " attempts: " ++ e)) ∧
    (∀ a f e, a + 1 < m → classify (responses a) = StepClass.exn e →
      (pollFrom responses m a (f+1)).1 = (pollFrom responses m (a+1) f).1) := by
  refine ⟨?_, ?_, ?_⟩
  · intro hr
    rw [query_run_eq st t0 delay fetch responses m tok htok]
    simp [pollFrom_all_retryable responses m hr m 0 (by omega)]
  · intro e hm hpre hfin
    rw [query_run_eq st t0 delay fetch responses m tok htok]
    have hc : classify (responses (m - 1)) = StepClass.exn e := by
      rw [hfin]
      rfl
    simp [pollFrom_final_exn responses m e hpre hc m 0 (by omega) (by omega)]
  · intro a f e ham hc
    have hne : a ≠ m - 1 := by omega
    simp [pollFrom, hc, if_neg hne]

/-- Witness for C6: (a) two transient responses with max 2 attempts end in
"Max retries exceeded"; (b) a final-attempt transport failure ends in the
wrapping raise carrying it; (c) a transport failure on attempt 1 of 3 is
retried, continuing with attempt 2. -/
theorem C6_exhausted_and_final_transport_witness :
    ((query_recognition_result initState 0 1
        (FetchResult.ok { access_token := some "T", expires_in := none, errmsg := none })
        (fun _ => QueryResponse.payload none (some 1) (some "server busy")) 2).1.outcome
      = PollOutcome.maxRetriesExceeded) ∧
    ((query_recognition_result initState 0 1
        (FetchResult.ok { access_token := some "T", expires_in := none, errmsg := none })
        (fun i => if i = 0 then QueryResponse.payload none (some 0) none
                  else QueryResponse.transportFail "conn reset") 2).1.outcome
      = PollOutcome.attemptsError
          "Failed to get recognition result after 2 attempts: conn reset") ∧
    ((pollFrom (fun _ => QueryResponse.transportFail "conn reset") 3 0 2).1
      = (pollFrom (fun _ => QueryResponse.transportFail "conn reset") 3 1 1).1) := by
  refine ⟨?_, ?_, ?_⟩
  · exact (C6_exhausted_and_final_transport initState 0 1
      (FetchResult.ok { access_token := some "T", expires_in := none, errmsg := none })
      (fun _ => QueryResponse.payload none (some 1) (some "server busy")) 2 "T" rfl).1
      (by intro i hi
          have h2 : i = 0 ∨ i = 1 := by omega
          rcases h2 with h | h <;> subst h <;> rfl)
  · exact (C6_exhausted_and_final_transport initState 0 1
      (FetchResult.ok { access_token := some "T", expires_in := none, errmsg := none })
      (fun i => if i = 0 then QueryResponse.payload none (some 0) none
                else QueryResponse.transportFail "conn reset") 2 "T" rfl).2.1
      "conn reset" (by omega)
      (by intro i hi
          have : i = 0 := by omega
          subst this
          rfl)
      rfl
  · exact (C6_exhausted_and_final_transport initState 0 1
      (FetchResult.ok { access_token := some "T", expires_in := none, errmsg := none })
      (fun _ => QueryResponse.transportFail "conn reset") 3 "T" rfl).2.2
      0 1 "conn reset" (by omega) rfl

/-- C2 (amended): `query_recognition_result` obtains a credential exactly
once, before the loop, and every query request of the run carries that same
token; no credential refresh happens between attempts. -/
theorem C2_single_token_lookup (st : CredState) (t0 delay : Int)
    (fetch : FetchResult) (responses : Nat → QueryResponse) (m : Nat) :
    ((query_recognition_result st t0 delay fetch responses m).1.tokenLookups
      = 1) ∧
    (∀ tok, tokenResult st t0 fetch = some tok →
      (query_recognition_result st t0 delay fetch responses m).1.queryTokens
        = List.replicate
            (query_recognition_result st t0 delay fetch responses m).1.queriesIssued
            tok) := by
  constructor
  · cases h : tokenResult st t0 fetch with
    | none =>
      rcases query_run_eq_error st t0 delay fetch responses m h with ⟨em, he⟩
      rw [he]
    | some tok =>
      rw [query_run_eq st t0 delay fetch responses m tok h]
  · intro tok h
    rw [query_run_eq st t0 delay fetch responses m tok h]

/-- Witness for the amended C2 at concrete inputs. -/
theorem C2_single_token_lookup_witness :
    ((query_recognition_result initState 0 1
        (FetchResult.ok { access_token := some "T", expires_in := none, errmsg := none })
        (fun _ => QueryResponse.payload none (some 0) none) 2).1.tokenLookups
      = 1) ∧
    ((query_recognition_result initState 0 1
        (FetchResult.ok { access_token := some "T", expires_in := none, errmsg := none })
        (fun _ => QueryResponse.payload none (some 0) none) 2).1.queryTokens
      = List.replicate
          (query_recognition_result initState 0 1
            (FetchResult.ok { access_token := some "T", expires_in := none, errmsg := none })
            (fun _ => QueryResponse.payload none (some 0) none) 2).1.queriesIssued
          "T") := by
  have h := C2_single_token_lookup initState 0 1
    (FetchResult.ok { access_token := some "T", expires_in := none, errmsg := none })
    (fun _ => QueryResponse.payload none (some 0) none) 2
  exact ⟨h.1, h.2 "T" rfl⟩

/-- C2 counterexample: a concrete poll run with two attempts during which
the credential expires.  The token is fetched once at time 0 with
`expires_in = 302`, so it is valid (in the source's own sense,
`now < token_expire_time - 300`) only before time 2.  The run sends query 1
at time 1 and query 2 at time 2, both carrying that one token, with exactly
one credential lookup for the whole run: the request of attempt 2 is issued
at a time at which the credential is no longer valid, so no valid credential
was obtained before that attempt and nothing was refreshed in between. -/
theorem C2_counterexample :
    ((query_recognition_result initState 0 1
        (FetchResult.ok { access_token := some "TOK", expires_in := some 302, errmsg := none })
        (fun _ => QueryResponse.payload none (some 0) none) 2).1.tokenLookups
      = 1) ∧
    ((query_recognition_result initState 0 1
        (FetchResult.ok { access_token := some "TOK", expires_in := some 302, errmsg := none })
        (fun _ => QueryResponse.payload none (some 0) none) 2).1.queriesIssued
      = 2) ∧
    ((query_recognition_result initState 0 1
        (FetchResult.ok { access_token := some "TOK", expires_in := some 302, errmsg := none })
        (fun _ => QueryResponse.payload none (some 0) none) 2).1.queryTimes
      = [1, 2]) ∧
    ((query_recognition_result initState 0 1
        (FetchResult.ok { access_token := some "TOK", expires_in := some 302, errmsg := none })
        (fun _ => QueryResponse.payload none (some 0) none) 2).1.queryTokens
      = ["TOK", "TOK"]) ∧
    ((query_recognition_result initState 0 1
        (FetchResult.ok { access_token := some "TOK", expires_in := some 302, errmsg := none })
        (fun _ => QueryResponse.payload none (some 0) none) 2).2
      = { access_token := some "TOK", token_expire_time := 302 }) ∧
    (credValid { access_token := some "TOK", token_expire_time := 302 } 1
      = true) ∧
    (credValid { access_token := some "TOK", token_expire_time := 302 } 2
      = false) := by
  refine ⟨rfl, rfl, ?_, rfl, rfl, rfl, rfl⟩
  decide

/-- C1 (behavior of the code at the spec's own test input): on attempt 1 of
5 the query endpoint answers with errcode 2 and the non-transient message
"invalid voice".  The loop body raises "Recognition error: invalid voice",
but its own blanket `except Exception` catches that raise, and since
attempt 1 is not the final attempt the loop retries: attempt 2 is issued
and its result is returned.  The non-transient error is therefore NOT an
immediate terminal failure — two query requests are sent and the run ends
in Success. -/
theorem C1_permanent_error_is_retried :
    (classify (QueryResponse.payload none (some 2) (some "invalid voice"))
      = StepClass.exn "Recognition error: invalid voice") ∧
    ((query_recognition_result
        { access_token := some "TOK", token_expire_time := 100000 } 0 1
        (FetchResult.transportFail "unused")
        (fun i => if i = 0
                  then QueryResponse.payload none (some 2) (some "invalid voice")
                  else QueryResponse.payload (some "RECOVERED") none none)
        5).1.outcome
      = PollOutcome.success "RECOVERED") ∧
    ((query_recognition_result
        { access_token := some "TOK", token_expire_time := 100000 } 0 1
        (FetchResult.transportFail "unused")
        (fun i => if i = 0
                  then QueryResponse.payload none (some 2) (some "invalid voice")
                  else QueryResponse.payload (some "RECOVERED") none none)
        5).1.queriesIssued
      = 2) := by
  refine ⟨?_, rfl, rfl⟩
  decide

/-- C8: with a valid credential and a readable artifact file,
`upload_voice_for_recognition` attempts exactly one POST whose parameters
carry the locally generated fresh voice id; a zero-errcode body makes it
return that id, and any other body makes it raise carrying the remote
message — no internal retry of the submission. -/
theorem C8_upload_once (fs : List String) (path : String) (st : CredState)
    (now : Int) (fetch : FetchResult) (freshId : String)
    (resp : UploadResponse) (tok : String)
    (htok : tokenResult st now fetch = some tok) (hfile : path ∈ fs) :
    ((upload_voice_for_recognition fs path st now fetch freshId resp).1.posts
      = 1) ∧
    ((upload_voice_for_recognition fs path st now fetch freshId resp).1.sentVoiceId
      = some freshId) ∧
    (∀ em, resp = UploadResponse.payload (some 0) em →
      (upload_voice_for_recognition fs path st now fetch freshId resp).1.outcome
        = Except.ok freshId) ∧
    (∀ ec em, resp = UploadResponse.payload ec em → ec ≠ some 0 →
      (upload_voice_for_recognition fs path st now fetch freshId resp).1.outcome
        = Except.error ("Voice upload error: Upload failed: "
            ++ em.getD "Unknown error")) := by
  unfold tokenResult at htok
  unfold upload_voice_for_recognition
  rcases hg : get_access_token st now fetch with ⟨tk, st2⟩
  rw [hg] at htok
  cases tk with
  | error msg => simp [tokenOf] at htok
  | cached t =>
    cases resp with
    | transportFail msg => simp [hfile]
    | payload ec em =>
      by_cases hec : ec = some 0
      · subst hec
        simp [hfile]
      · refine ⟨by simp [hfile, hec], by simp [hfile, hec], ?_, ?_⟩
        · intro em2 he
          injection he with h1 h2
          exact absurd h1 hec
        · intro ec2 em2 he hne
          injection he with h1 h2
          subst h1
          subst h2
          simp [hfile, hec]
  | fetched t =>
    cases resp with
    | transportFail msg => simp [hfile]
    | payload ec em =>
      by_cases hec : ec = some 0
      · subst hec
        simp [hfile]
      · refine ⟨by simp [hfile, hec], by simp [hfile, hec], ?_, ?_⟩
        · intro em2 he
          injection he with h1 h2
          exact absurd h1 hec
        · intro ec2 em2 he hne
          injection he with h1 h2
          subst h1
          subst h2
          simp [hfile, hec]

/-- Witness for C8: a zero-errcode body returns the locally generated id
after one POST, and a non-zero-errcode body raises carrying the remote
message after one POST. -/
theorem C8_upload_once_witness :
    ((upload_voice_for_recognition ["a.mp3"] "a.mp3"
        { access_token := some "T", token_expire_time := 100000 } 0
        (FetchResult.transportFail "unused") "uuid-1"
        (UploadResponse.payload (some 0) none)).1.posts = 1) ∧
    ((upload_voice_for_recognition ["a.mp3"] "a.mp3"
        { access_token := some "T", token_expire_time := 100000 } 0
        (FetchResult.transportFail "unused") "uuid-1"
        (UploadResponse.payload (some 0) none)).1.outcome
      = Except.ok "uuid-1") ∧
    ((upload_voice_for_recognition ["a.mp3"] "a.mp3"
        { access_token := some "T", token_expire_time := 100000 } 0
        (FetchResult.transportFail "unused") "uuid-1"
        (UploadResponse.payload (some 40003) (some "invalid media"))).1.outcome
      = Except.error "Voice upload error: Upload failed: invalid media") := by
  have h1 := C8_upload_once ["a.mp3"] "a.mp3"
    { access_token := some "T", token_expire_time := 100000 } 0
    (FetchResult.transportFail "unused") "uuid-1"
    (UploadResponse.payload (some 0) none) "T" rfl (by simp)
  have h2 := C8_upload_once ["a.mp3"] "a.mp3"
    { access_token := some "T", token_expire_time := 100000 } 0
    (FetchResult.transportFail "unused") "uuid-1"
    (UploadResponse.payload (some 40003) (some "invalid media")) "T" rfl (by simp)
  exact ⟨h1.1, h1.2.2.1 none rfl, h2.2.2.2 (some 40003) (some "invalid media") rfl (by decide)⟩

/-- C4: for every outcome of `recognize_speech` — success, an upload or
poll error, or any fault the oracles can produce — if the transcoded
artifact file was created (the conversion stage succeeded on an existing
input), it no longer exists in the filesystem afterwards: the `finally`
cleanup runs on every exit path. -/
theorem C4_cleanup (fs : List String) (input : String) (st : CredState)
    (t0 : Int) (fetchU fetchQ : FetchResult) (freshId : String)
    (uResp : UploadResponse) (responses : Nat → QueryResponse)
    (hin : input ∈ fs) :
    convertedPath input ∉
      (recognize_speech fs input ConvertResult.ok st t0 fetchU fetchQ freshId
        uResp responses).2 := by
  unfold recognize_speech convert_audio_to_mp3
  rw [if_pos hin]
  simp [List.mem_filter]

/-- Witness for C4: a concrete full run (conversion succeeds, upload
accepted, poll succeeds) after which the converted file is gone. -/
theorem C4_cleanup_witness :
    convertedPath "voice.wav" ∉
      (recognize_speech ["voice.wav"] "voice.wav" ConvertResult.ok initState 0
        (FetchResult.ok { access_token := some "T", expires_in := none, errmsg := none })
        (FetchResult.ok { access_token := some "T", expires_in := none, errmsg := none })
        "uuid-1" (UploadResponse.payload (some 0) none)
        (fun _ => QueryResponse.payload (some "hi") none none)).2 :=
  C4_cleanup ["voice.wav"] "voice.wav" initState 0
    (FetchResult.ok { access_token := some "T", expires_in := none, errmsg := none })
    (FetchResult.ok { access_token := some "T", expires_in := none, errmsg := none })
    "uuid-1" (UploadResponse.payload (some 0) none)
    (fun _ => QueryResponse.payload (some "hi") none none)
    (by simp)
